import Mathlib

/-!
Verification of the txjuju protocol core against its specification.

The embedded source is `src/txjuju/testing/api.py`: the fake transport
`FakeAPIBackend` and the fake protocol `FakeAPIClientProtocol`.  The real
`txjuju.protocol.APIClientProtocol` (request correlator and delta stream
consumer) is imported by that file but its source is not part of the
repository snapshot; the definitions below that stand for it are marked
"Modelled from the spec" and follow the specification's words.
-/

namespace TxJuju

/-- JSON-like values exchanged on the wire.  `FakeAPIBackend.write` parses the
serialized envelope with `json.loads` and `_fire` serializes with
`json.dumps`; in this embedding the codec round trip is the identity and
messages are passed as `JVal` values.  Objects keep CPython's insertion
order of keys. -/
inductive JVal where
  | jnull : JVal
  | jbool : Bool → JVal
  | jnat : Nat → JVal
  | jstr : String → JVal
  | jarr : List JVal → JVal
  | jobj : List (String × JVal) → JVal

/-- Python dict lookup `d[k]` on an association list; the fakes never shadow
keys, so the first binding wins. -/
def lookupField : List (String × JVal) → String → Option JVal
  | [], _ => none
  | (k, v) :: rest, key => if k = key then some v else lookupField rest key

/-- Python dict update `d[k] = v`: replace the existing binding in place or
append a fresh one at the end (insertion order is preserved). -/
def updateField : List (String × JVal) → String → JVal → List (String × JVal)
  | [], key, v => [(key, v)]
  | (k, w) :: rest, key, v =>
      if k = key then (key, v) :: rest else (k, w) :: updateField rest key v

/-- The backend's `requests` dict, mapping integer request ids to payloads. -/
def updateReq : List (Nat × List (String × JVal)) → Nat → List (String × JVal) →
    List (Nat × List (String × JVal))
  | [], key, v => [(key, v)]
  | (k, w) :: rest, key, v =>
      if k = key then (key, v) :: rest else (k, w) :: updateReq rest key v

/-- Failure reasons handed to a Deferred errback: `connectionDone` embeds
twisted's `ConnectionDone` (used by `FakeAPIClientProtocol._loseConnection`),
`connectionLost` embeds `ConnectionLost` (used by
`FakeAPIBackend.loseConnection`), and `errorResp` an error envelope (message
and code) from the peer. -/
inductive Fail where
  | connectionDone : Fail
  | connectionLost : Fail
  | errorResp : String → String → Fail
  deriving Repr, DecidableEq

/-- True exactly for the failures that report termination of the
connection. -/
def Fail.isDisconnect : Fail → Bool
  | .connectionDone => true
  | .connectionLost => true
  | .errorResp _ _ => false

/-- A twisted Deferred reduced to its observable resolution state: `none`
while waiting, `some (Except.ok v)` after `callback v`, and
`some (Except.error f)` after `errback f`.  Firing an already fired Deferred
raises `AlreadyCalledError` and leaves it unchanged. -/
abbrev Deferred := Option (Except Fail JVal)

/-- Errors the Python list/dict primitives raise inside
`FakeAPIBackend._fire`: `indexError` for `self.pending[0]` on an empty list,
`valueError` for `list.remove` of an id that is not pending. -/
inductive FireErr where
  | indexError : FireErr
  | valueError : FireErr
  deriving Repr, DecidableEq

/-- State of `FakeAPIBackend`: the `requests` dict mapping request ids to
their payloads, the ordered list of `pending` ids, the `connected` flag and
the protocol `version` (the `protocol` field, a real `APIClientProtocol`, is
modelled separately by `Correlator`). -/
structure FakeAPIBackend where
  requests : List (Nat × List (String × JVal))
  pending : List Nat
  connected : Bool
  version : Nat

/-- Constructor `FakeAPIBackend.__init__`: empty tables, connected, given
protocol version (Python default is 1). -/
def FakeAPIBackend.init (version : Nat) : FakeAPIBackend :=
  { requests := [], pending := [], connected := true, version := version }

/-- ITransport method `FakeAPIBackend.write`: parse the envelope, append its
`RequestId` to `pending` and store the payload in `requests`.  Returns `none`
where Python would raise (non-object data or missing/non-integer
`RequestId`). -/
def FakeAPIBackend.write (st : FakeAPIBackend) (data : JVal) : Option FakeAPIBackend :=
  match data with
  | .jobj payload =>
      match lookupField payload "RequestId" with
      | some (.jnat request_id) =>
          some { st with
                 pending := st.pending ++ [request_id],
                 requests := updateReq st.requests request_id payload }
      | _ => none
  | _ => none

/-- Method `FakeAPIBackend._fire`: pick the oldest pending id when none is
given, set `payload["RequestId"]`, remove the id from `pending` (first
occurrence, as `list.remove`) and hand the serialized payload to
`protocol.dataReceived`.  The delivered wire message is returned together
with the new state. -/
def FakeAPIBackend._fire (st : FakeAPIBackend) (payload : List (String × JVal))
    (requestId : Option Nat) : Except FireErr (FakeAPIBackend × JVal) :=
  match requestId, st.pending with
  | none, [] => .error .indexError
  | none, pid :: _ =>
      .ok ({ st with pending := st.pending.erase pid },
           .jobj (updateField payload "RequestId" (.jnat pid)))
  | some rid, _ =>
      if rid ∈ st.pending then
        .ok ({ st with pending := st.pending.erase rid },
             .jobj (updateField payload "RequestId" (.jnat rid)))
      else
        .error .valueError

/-- Method `FakeAPIBackend.response`: fire `{"Response": response}` for the
given request id (oldest pending one when the id is omitted). -/
def FakeAPIBackend.response (st : FakeAPIBackend) (response : JVal)
    (requestId : Option Nat) : Except FireErr (FakeAPIBackend × JVal) :=
  st._fire [("Response", response)] requestId

/-- Method `FakeAPIBackend.responseWatchAll`: reply to the watch-start call
with `AllWatcherId "1"`. -/
def FakeAPIBackend.responseWatchAll (st : FakeAPIBackend) :
    Except FireErr (FakeAPIBackend × JVal) :=
  st.response (.jobj [("AllWatcherId", .jstr "1")]) none

/-- The exception argument of `FakeAPIBackend.error`, carrying the juju error
message and code. -/
structure APIErrorExc where
  error : String
  code : String
  deriving Repr, DecidableEq

/-- Method `FakeAPIBackend.error`: fire `{"Error": ..., "ErrorCode": ...}`
for the given request id (oldest pending one when the id is omitted). -/
def FakeAPIBackend.error (st : FakeAPIBackend) (exception : APIErrorExc)
    (requestId : Option Nat) : Except FireErr (FakeAPIBackend × JVal) :=
  st._fire [("Error", .jstr exception.error), ("ErrorCode", .jstr exception.code)] requestId

/-- Argument of `FakeAPIBackend._formatAnnotationInfo`: a juju annotation
entity with its tag name and annotation pairs. -/
structure AnnotationInfo where
  name : String
  pairs : List (String × JVal)

/-- Argument of `FakeAPIBackend._formatJujuApplicationInfo`. -/
structure JujuApplicationInfo where
  name : String
  charmURL : String
  deriving Repr, DecidableEq

/-- Argument of `FakeAPIBackend._formatUnitInfo`. -/
structure UnitInfo where
  name : String
  applicationName : String
  charmURL : String
  deriving Repr, DecidableEq

/-- Argument of `FakeAPIBackend._formatMachineInfo`. -/
structure MachineInfo where
  id : String
  instanceId : String
  status : String
  deriving Repr, DecidableEq

/-- The juju entity classes `responseDeltas` dispatches on via
`getattr(self, "_format" + delta[0].__class__.__name__)`. -/
inductive Entity where
  | annotEntity : AnnotationInfo → Entity
  | appEntity : JujuApplicationInfo → Entity
  | unitEntity : UnitInfo → Entity
  | machineEntity : MachineInfo → Entity

/-- Method `FakeAPIBackend._formatAnnotationInfo`. -/
def FakeAPIBackend._formatAnnotationInfo (_st : FakeAPIBackend)
    (info : AnnotationInfo) (verb : String) : JVal :=
  .jarr [.jstr "annotation", .jstr verb,
         .jobj [("Annotations", .jobj info.pairs), ("Tag", .jstr info.name)]]

/-- Method `FakeAPIBackend._formatJujuApplicationInfo`: the entity-kind tag
is `"service"` under protocol version 1 and `"application"` otherwise. -/
def FakeAPIBackend._formatJujuApplicationInfo (st : FakeAPIBackend)
    (info : JujuApplicationInfo) (verb : String) : JVal :=
  let entityName := if st.version = 1 then "service" else "application"
  .jarr [.jstr entityName, .jstr verb,
         .jobj [("Name", .jstr info.name), ("CharmURL", .jstr info.charmURL)]]

/-- Method `FakeAPIBackend._formatUnitInfo`. -/
def FakeAPIBackend._formatUnitInfo (_st : FakeAPIBackend)
    (info : UnitInfo) (verb : String) : JVal :=
  .jarr [.jstr "unit", .jstr verb,
         .jobj [("Name", .jstr info.name), ("Service", .jstr info.applicationName),
                ("CharmURL", .jstr info.charmURL)]]

/-- Method `FakeAPIBackend._formatMachineInfo`. -/
def FakeAPIBackend._formatMachineInfo (_st : FakeAPIBackend)
    (info : MachineInfo) (verb : String) : JVal :=
  .jarr [.jstr "machine", .jstr verb,
         .jobj [("Id", .jstr info.id), ("InstanceId", .jstr info.instanceId),
                ("Status", .jstr info.status)]]

/-- The `getattr`-based dispatch of `responseDeltas` on the runtime class of
the entity. -/
def FakeAPIBackend.formatEntity (st : FakeAPIBackend) (e : Entity) (verb : String) : JVal :=
  match e with
  | .annotEntity i => st._formatAnnotationInfo i verb
  | .appEntity i => st._formatJujuApplicationInfo i verb
  | .unitEntity i => st._formatUnitInfo i verb
  | .machineEntity i => st._formatMachineInfo i verb

/-- One element of the `deltas` argument of `responseDeltas`: either a bare
entity (verb defaults to `"change"`) or an (entity, verb) 2-tuple. -/
inductive DeltaArg where
  | plain : Entity → DeltaArg
  | withVerb : Entity → String → DeltaArg

/-- Normalization plus dispatch for one delta, as done by the loop body of
`responseDeltas`. -/
def FakeAPIBackend.formatDelta (st : FakeAPIBackend) : DeltaArg → JVal
  | .plain e => st.formatEntity e "change"
  | .withVerb e verb => st.formatEntity e verb

/-- Method `FakeAPIBackend.responseDeltas`: format every delta in order and
fire a single response whose `Deltas` field is the resulting list. -/
def FakeAPIBackend.responseDeltas (st : FakeAPIBackend) (deltas : List DeltaArg) :
    Except FireErr (FakeAPIBackend × JVal) :=
  st.response (.jobj [("Deltas", .jarr (deltas.map st.formatDelta))]) none

/-- Arguments of one `sendRequest` call, the Request of the data model. -/
structure Request where
  entityType : String
  requestInfo : String
  entityId : Option String
  params : Option JVal
  facadeVersion : Nat

/-- Modelled from the spec: the Request Correlator inside
`txjuju.protocol.APIClientProtocol`, whose source is not under `src/` (only
its fake transport `FakeAPIBackend` is).  `lastId` is the externally owned
monotonically increasing counter (ids start at 1); `entries` keys every
issued id to its single-resolution outcome, `none` while pending. -/
structure Correlator where
  lastId : Nat
  entries : List (Nat × Deferred)
  connected : Bool

/-- A fresh correlator on a newly established connection. -/
def Correlator.fresh : Correlator :=
  { lastId := 0, entries := [], connected := true }

/-- Lookup of the outcome entry keyed by a request id. -/
def entryGet : List (Nat × Deferred) → Nat → Option Deferred
  | [], _ => none
  | (i, d) :: rest, id => if i = id then some d else entryGet rest id

/-- Resolution of the outcome entry keyed by a request id (first matching
entry). -/
def entrySet : List (Nat × Deferred) → Nat → Except Fail JVal → List (Nat × Deferred)
  | [], _, _ => []
  | (i, d) :: rest, id, v =>
      if i = id then (i, some v) :: rest else (i, d) :: entrySet rest id v

/-- Modelled from the spec: `send` allocates the next integer id (strictly
increasing, never reused within the connection's lifetime), stores a pending
entry keyed by the id, and emits the serialized outgoing envelope
`RequestId, Type, Request, Id?, Params?, Version`.  Returns the new state,
the assigned id and the envelope handed to `transport.write`. -/
def Correlator.send (c : Correlator) (r : Request) : Correlator × Nat × JVal :=
  let id := c.lastId + 1
  let envelope : List (String × JVal) :=
    [("RequestId", .jnat id), ("Type", .jstr r.entityType),
     ("Request", .jstr r.requestInfo)]
      ++ (match r.entityId with | some s => [("Id", JVal.jstr s)] | none => [])
      ++ (match r.params with | some p => [("Params", p)] | none => [])
      ++ [("Version", .jnat r.facadeVersion)]
  ({ c with lastId := id, entries := c.entries ++ [(id, none)] }, id, .jobj envelope)

/-- Report of one resolve/reject attempt: the matched outcome fired, or the
message had no pending entry and is reported as `UnmatchedResponseError`. -/
inductive ResolveReport where
  | fired : ResolveReport
  | unmatchedResponse : ResolveReport
  deriving Repr, DecidableEq

/-- Modelled from the spec: `resolve`/`reject` look up the pending entry by
id; if present and unresolved the outcome fires exactly once with the given
value; if absent (unknown id, already resolved, or after disconnection) the
message is reported as `UnmatchedResponseError` and nothing is raised across
the connection boundary. -/
def Correlator.resolve (c : Correlator) (id : Nat) (v : Except Fail JVal) :
    Correlator × ResolveReport :=
  match entryGet c.entries id with
  | some none => ({ c with entries := entrySet c.entries id v }, .fired)
  | _ => (c, .unmatchedResponse)

/-- Modelled from the spec: on the transition into `Disconnected` every
currently pending entry is rejected with a connection-lost failure and the
correlator leaves the connected state. -/
def Correlator.connectionLost (c : Correlator) (f : Fail) : Correlator :=
  { c with connected := false,
           entries := c.entries.map (fun e =>
             match e.2 with
             | none => (e.1, some (Except.error f))
             | some _ => e) }

/-- ITransport method `FakeAPIBackend.loseConnection`: clear the backend's
`connected` flag and deliver `connectionLost` with a `ConnectionLost` reason
to the attached protocol (the spec-modelled `Correlator`). -/
def FakeAPIBackend.loseConnection (st : FakeAPIBackend) (proto : Correlator) :
    FakeAPIBackend × Correlator :=
  ({ st with connected := false }, proto.connectionLost Fail.connectionLost)

/-- One event driving the correlator during a connection's lifetime: a
`send` issued by a caller, or an inbound response/error envelope delivered
for some request id. -/
inductive CorrEvent where
  | sendEvt : Request → CorrEvent
  | deliverResult : Nat → JVal → CorrEvent
  | deliverError : Nat → String → String → CorrEvent

/-- Run a lifetime trace of events, collecting the ids assigned to `send`
calls in issuance order. -/
def Correlator.runOps : Correlator → List CorrEvent → Correlator × List Nat
  | c, [] => (c, [])
  | c, .sendEvt r :: ops =>
      let s := c.send r
      let rest := Correlator.runOps s.1 ops
      (rest.1, s.2.1 :: rest.2)
  | c, .deliverResult id v :: ops =>
      Correlator.runOps (c.resolve id (.ok v)).1 ops
  | c, .deliverError id msg code :: ops =>
      Correlator.runOps (c.resolve id (.error (.errorResp msg code))).1 ops

/-- Issue a list of requests back-to-back: each `send` emits its envelope,
which the fake transport records via `FakeAPIBackend.write`.  Collects the
assigned ids in issuance order (`none` only if `write` would raise). -/
def runSends : Correlator → FakeAPIBackend → List Request →
    Option (Correlator × FakeAPIBackend × List Nat)
  | c, b, [] => some (c, b, [])
  | c, b, r :: rs =>
      let s := c.send r
      match b.write s.2.2 with
      | none => none
      | some b' =>
          (runSends s.1 b' rs).map (fun rest => (rest.1, rest.2.1, s.2.1 :: rest.2.2))

/-- Deliver a list of response envelopes (request id and result) to the
correlator in order. -/
def Correlator.deliverAll (c : Correlator) (msgs : List (Nat × JVal)) : Correlator :=
  match msgs with
  | [] => c
  | (id, v) :: rest => Correlator.deliverAll (c.resolve id (.ok v)).1 rest

/-- State of `FakeAPIClientProtocol`: the `disconnected` Deferred, the queue
of pending (request, response-Deferred) pairs and the queued errors and
responses consumed by later `sendRequest` calls. -/
structure FakeAPIClientProtocol where
  connected : Bool
  disconnected : Deferred
  _pending_requests : List (Request × Deferred)
  _queued_errors : List Fail
  _queued_responses : List (String × String × JVal)

/-- Constructor `FakeAPIClientProtocol.__init__`: fresh `disconnected`
Deferred and empty queues (`connected` is the class attribute, `True`). -/
def FakeAPIClientProtocol.init : FakeAPIClientProtocol :=
  { connected := true, disconnected := none,
    _pending_requests := [], _queued_errors := [], _queued_responses := [] }

/-- Observable state of the Deferred returned by one `sendRequest` call:
errbacked at once with a queued error, callbacked at once with a queued
response, or left waiting and appended to `_pending_requests`.
`assertionFailed` is the `AssertionError` raised when a queued response does
not match the request (the queue entry is popped before the assert). -/
inductive SendOutcome where
  | immediateFailure : Fail → SendOutcome
  | immediateResult : JVal → SendOutcome
  | queuedPending : SendOutcome
  | assertionFailed : SendOutcome

/-- Method `FakeAPIClientProtocol.sendRequest`: consume a queued error first,
else a queued response (asserting it matches the request), else append the
request with a fresh waiting Deferred to `_pending_requests`. -/
def FakeAPIClientProtocol.sendRequest (p : FakeAPIClientProtocol)
    (entityType requestInfo : String) (entityId : Option String)
    (params : Option JVal) (facade_version : Nat) :
    FakeAPIClientProtocol × SendOutcome :=
  let request : Request :=
    { entityType := entityType, requestInfo := requestInfo, entityId := entityId,
      params := params, facadeVersion := facade_version }
  match p._queued_errors with
  | reason :: restErrors =>
      ({ p with _queued_errors := restErrors }, .immediateFailure reason)
  | [] =>
      match p._queued_responses with
      | (prepType, prepInfo, content) :: restResponses =>
          if prepType = entityType ∧ prepInfo = requestInfo then
            ({ p with _queued_responses := restResponses }, .immediateResult content)
          else
            ({ p with _queued_responses := restResponses }, .assertionFailed)
      | [] =>
          ({ p with _pending_requests := p._pending_requests ++ [(request, none)] },
           .queuedPending)

/-- Report of one `response`/`error` delivery on the fake protocol: the first
pending request's Deferred fired with the given outcome, the outcome was
queued because nothing was pending, the entityType/request assertion failed,
or the popped Deferred had already been fired (`AlreadyCalledError`). -/
inductive DeliverReport where
  | firedFirst : Request → Except Fail JVal → DeliverReport
  | queuedUp : DeliverReport
  | assertionError : DeliverReport
  | alreadyCalledError : DeliverReport

/-- Method `FakeAPIClientProtocol.response`: pop the first pending request,
assert the entityType and request match, and fire its Deferred with the
content; with no pending requests the response is queued for the next
`sendRequest`. -/
def FakeAPIClientProtocol.response (p : FakeAPIClientProtocol)
    (entityType request : String) (content : JVal) :
    FakeAPIClientProtocol × DeliverReport :=
  match p._pending_requests with
  | (request_info, respD) :: rest =>
      let p' := { p with _pending_requests := rest }
      if request_info.entityType = entityType ∧ request_info.requestInfo = request then
        match respD with
        | none => (p', .firedFirst request_info (.ok content))
        | some _ => (p', .alreadyCalledError)
      else
        (p', .assertionError)
  | [] =>
      ({ p with _queued_responses := p._queued_responses ++ [(entityType, request, content)] },
       .queuedUp)

/-- Method `FakeAPIClientProtocol.error`: pop the first pending request and
errback its Deferred with the reason; with no pending requests the reason is
queued for the next `sendRequest`. -/
def FakeAPIClientProtocol.error (p : FakeAPIClientProtocol) (reason : Fail) :
    FakeAPIClientProtocol × DeliverReport :=
  match p._pending_requests with
  | (request_info, respD) :: rest =>
      let p' := { p with _pending_requests := rest }
      match respD with
      | none => (p', .firedFirst request_info (.error reason))
      | some _ => (p', .alreadyCalledError)
  | [] =>
      ({ p with _queued_errors := p._queued_errors ++ [reason] }, .queuedUp)

/-- Method `FakeAPIClientProtocol._loseConnection` (the transport's
`loseConnection`): clear `connected`, errback every not-yet-called pending
Deferred with `ConnectionDone`, then fire the `disconnected` Deferred.  The
returned Bool reports whether that last `callback` raised
`AlreadyCalledError` because `disconnected` had already been fired by an
earlier close; the state mutations before the raise persist. -/
def FakeAPIClientProtocol._loseConnection (p : FakeAPIClientProtocol) :
    FakeAPIClientProtocol × Bool :=
  let flushed := p._pending_requests.map (fun rd =>
    match rd.2 with
    | none => (rd.1, some (Except.error Fail.connectionDone))
    | some _ => rd)
  match p.disconnected with
  | none =>
      ({ p with connected := false, _pending_requests := flushed,
                disconnected := some (.ok .jnull) }, false)
  | some _ =>
      ({ p with connected := false, _pending_requests := flushed }, true)

/-- Modelled from the spec: the Delta Stream Consumer of the real client
(not under `src/`), reduced to the state the claims mention: the captured
WatcherHandle id and whether the loop has been stopped. -/
structure DeltaConsumer where
  handle : Option String
  stopped : Bool
  deriving Repr, DecidableEq

/-- Modelled from the spec: on success of the "start all changes" call the
consumer captures the returned WatcherHandle id (`AllWatcherId`). -/
def DeltaConsumer.onWatchStartReply (cs : DeltaConsumer) (resp : JVal) : DeltaConsumer :=
  match resp with
  | .jobj fields =>
      match lookupField fields "AllWatcherId" with
      | some (.jstr wid) => { cs with handle := some wid }
      | _ => cs
  | _ => cs

/-- Modelled from the spec: the handle id the next "next batch" call is
bound to; `none` when the consumer is stopped (or was never started), so no
further "next batch" call is issued. -/
def DeltaConsumer.nextBatchCall (cs : DeltaConsumer) : Option String :=
  if cs.stopped then none else cs.handle

/-- Modelled from the spec: on connection loss the Delta Stream Consumer is
told to stop; its handle becomes invalid and no further "next batch" call is
issued. -/
def DeltaConsumer.onConnectionLost (cs : DeltaConsumer) : DeltaConsumer :=
  { cs with handle := none, stopped := true }

/-- Entity kinds of a decoded ChangeRecord. -/
inductive ChangeKind where
  | annotKind : ChangeKind
  | applicationKind : ChangeKind
  | unitKind : ChangeKind
  | machineKind : ChangeKind
  deriving Repr, DecidableEq

/-- One decoded delta, the ChangeRecord of the data model: entity kind, verb
and the identifying field of the entity. -/
structure ChangeRecord where
  kind : ChangeKind
  verb : String
  entityId : String
  deriving Repr, DecidableEq

/-- Modelled from the spec: decoding one batch element dispatches on the
entity-kind tag (`annotation`, `service` or `application` under
version-dependent naming, `unit`, `machine`); an unrecognized kind is a
decode failure for that element only and yields `none`. -/
def decodeDeltaElem : JVal → Option ChangeRecord
  | .jarr [.jstr kind, .jstr verb, .jobj fields] =>
      let strField := fun (k : String) =>
        match lookupField fields k with
        | some (.jstr s) => some s
        | _ => none
      if kind = "annotation" then
        (strField "Tag").map (fun t => ⟨ChangeKind.annotKind, verb, t⟩)
      else if kind = "service" ∨ kind = "application" then
        (strField "Name").map (fun n => ⟨ChangeKind.applicationKind, verb, n⟩)
      else if kind = "unit" then
        (strField "Name").map (fun n => ⟨ChangeKind.unitKind, verb, n⟩)
      else if kind = "machine" then
        (strField "Id").map (fun i => ⟨ChangeKind.machineKind, verb, i⟩)
      else none
  | _ => none

/-- Modelled from the spec: decode a watch-next response into the ordered
sequence of ChangeRecord published to the subscriber, skipping per-element
decode failures. -/
def decodeBatch (resp : JVal) : List ChangeRecord :=
  match resp with
  | .jobj fields =>
      match lookupField fields "Deltas" with
      | some (.jarr elems) => elems.filterMap decodeDeltaElem
      | _ => []
  | _ => []

/-- Pure iteration of `send` over a list of requests: the N back-to-back
`send` calls of the central correctness property, issued before any response
arrives. -/
def Correlator.sendMany (c : Correlator) (rs : List Request) : Correlator :=
  match rs with
  | [] => c
  | r :: rest => Correlator.sendMany (c.send r).1 rest

/-- The watch-start call of the C7 scenario. -/
def watchStartReq : Request :=
  { entityType := "Client", requestInfo := "WatchAll", entityId := none,
    params := none, facadeVersion := 1 }

/-- The "next batch" call of the C7 scenario, bound to watcher handle "1". -/
def nextBatchReq : Request :=
  { entityType := "AllWatcher", requestInfo := "Next", entityId := some "1",
    params := none, facadeVersion := 1 }

/-- The machine delta of the C7 scenario, passed bare so the verb defaults
to "change". -/
def machineDelta : DeltaArg :=
  .plain (.machineEntity { id := "0", instanceId := "i-123", status := "started" })

/-- A delta stream consumer that has not started watching yet. -/
def deltaConsumerStart : DeltaConsumer := { handle := none, stopped := false }

/-- A concrete login request, used in the concrete instances below. -/
def reqAlpha : Request :=
  { entityType := "Admin", requestInfo := "Login", entityId := none,
    params := none, facadeVersion := 1 }

/-- A fake protocol with one waiting and one already-resolved pending
request. -/
def protoTwoPending : FakeAPIClientProtocol :=
  { connected := true, disconnected := none,
    _pending_requests := [(reqAlpha, none), (reqAlpha, some (.ok (.jstr "done")))],
    _queued_errors := [], _queued_responses := [] }

/-- A correlator with id 1 pending and nothing else issued. -/
def corrOnePending : Correlator :=
  { lastId := 1, entries := [(1, none)], connected := true }

/-- A correlator whose only issued request, id 1, is already resolved. -/
def corrOneResolved : Correlator :=
  { lastId := 1, entries := [(1, some (.ok (.jstr "done")))], connected := true }

/-- A backend with requests 1 and 2 pending, as after two writes. -/
def backendTwoPending : FakeAPIBackend :=
  { requests := [], pending := [1, 2], connected := true, version := 1 }

end TxJuju

namespace TxJuju

/-! Helper lemmas about the outcome table. -/

/-- Setting an id that is currently mapped overwrites exactly that entry. -/
theorem entryGet_entrySet_self (l : List (Nat × Deferred)) (id : Nat)
    (v : Except Fail JVal) (d : Deferred) (h : entryGet l id = some d) :
    entryGet (entrySet l id v) id = some (some v) := by
  induction l with
  | nil => simp [entryGet] at h
  | cons hd tl ih =>
      obtain ⟨i, w⟩ := hd
      by_cases hi : i = id
      · subst hi
        simp [entryGet, entrySet]
      · simp only [entryGet, entrySet, if_neg hi] at h ⊢
        exact ih h

/-- Setting one id leaves every other id's entry unchanged. -/
theorem entryGet_entrySet_other (l : List (Nat × Deferred)) (j id : Nat)
    (v : Except Fail JVal) (hne : j ≠ id) :
    entryGet (entrySet l j v) id = entryGet l id := by
  induction l with
  | nil => simp [entrySet, entryGet]
  | cons hd tl ih =>
      obtain ⟨i, w⟩ := hd
      by_cases hi : i = j
      · subst hi
        simp [entryGet, entrySet, if_neg hne]
      · simp only [entrySet, if_neg hi, entryGet]
        by_cases hid : i = id
        · simp [hid]
        · simp [hid, ih]

/-- Resolving one id leaves every other id's entry unchanged, whether or not
the resolve fired. -/
theorem resolve_preserves_other (c : Correlator) (j id : Nat)
    (w : Except Fail JVal) (hne : j ≠ id) :
    entryGet ((c.resolve j w).1).entries id = entryGet c.entries id := by
  unfold Correlator.resolve
  match hj : entryGet c.entries j with
  | none => simp
  | some none => simpa using entryGet_entrySet_other c.entries j id w hne
  | some (some r) => simp

/-- Resolving an id that is pending fires it: afterwards the entry holds the
delivered value. -/
theorem resolve_fires (c : Correlator) (id : Nat) (v : Except Fail JVal)
    (h : entryGet c.entries id = some none) :
    (c.resolve id v).2 = .fired ∧
      entryGet ((c.resolve id v).1).entries id = some (some v) := by
  unfold Correlator.resolve
  rw [h]
  exact ⟨rfl, entryGet_entrySet_self c.entries id v none h⟩

/-- Delivering envelopes for other ids only leaves an id's entry
unchanged. -/
theorem deliverAll_preserves_not_mem (msgs : List (Nat × JVal)) :
    ∀ (c : Correlator) (id : Nat), id ∉ msgs.map Prod.fst →
      entryGet ((c.deliverAll msgs)).entries id = entryGet c.entries id := by
  induction msgs with
  | nil => intro c id _; rfl
  | cons m rest ih =>
      intro c id hmem
      obtain ⟨j, v⟩ := m
      simp only [List.map_cons, List.mem_cons] at hmem
      push_neg at hmem
      rw [Correlator.deliverAll, ih _ id hmem.2,
          resolve_preserves_other c j id (.ok v) (fun h => hmem.1 h.symm)]

/-- A pending id that occurs in a delivery list with pairwise distinct ids
ends up resolved with exactly the payload addressed to it. -/
theorem deliverAll_fires (msgs : List (Nat × JVal)) :
    ∀ (c : Correlator) (id : Nat) (v : JVal), (id, v) ∈ msgs →
      (msgs.map Prod.fst).Nodup → entryGet c.entries id = some none →
      entryGet ((c.deliverAll msgs)).entries id = some (some (.ok v)) := by
  induction msgs with
  | nil => intro c id v h; simp at h
  | cons m rest ih =>
      intro c id v hmem hnodup hpending
      obtain ⟨j, w⟩ := m
      simp only [List.map_cons, List.nodup_cons] at hnodup
      rcases List.mem_cons.mp hmem with heq | hrest
      · have h1 : id = j := congrArg Prod.fst heq
        have h2 : v = w := congrArg Prod.snd heq
        subst h1
        subst h2
        rw [Correlator.deliverAll]
        have hfired := resolve_fires c id (.ok v) hpending
        have hid_not : id ∉ rest.map Prod.fst := hnodup.1
        rw [deliverAll_preserves_not_mem rest _ id hid_not]
        exact hfired.2
      · have hne : j ≠ id := by
          intro h
          subst h
          exact hnodup.1 (List.mem_map_of_mem Prod.fst hrest)
        rw [Correlator.deliverAll]
        exact ih _ id v hrest hnodup.2
          (by rw [resolve_preserves_other c j id (.ok w) hne]; exact hpending)

/-! Lemmas about id allocation. -/

/-- After N back-to-back sends the table holds one pending entry per
consecutive id. -/
theorem sendMany_entries (rs : List Request) :
    ∀ c : Correlator,
      (c.sendMany rs).entries =
        c.entries ++ (List.range' (c.lastId + 1) rs.length).map (fun i => (i, none)) ∧
      (c.sendMany rs).lastId = c.lastId + rs.length := by
  induction rs with
  | nil => intro c; simp [Correlator.sendMany]
  | cons r rest ih =>
      intro c
      rw [Correlator.sendMany]
      obtain ⟨h1, h2⟩ := ih (c.send r).1
      constructor
      · rw [h1]
        simp [Correlator.send, List.range'_succ, Nat.add_assoc]
      · rw [h2]
        simp [Correlator.send]
        omega

/-- Lookup in a table of consecutive pending entries. -/
theorem entryGet_range_map (n : Nat) :
    ∀ a id : Nat,
      entryGet ((List.range' a n).map (fun i => (i, (none : Deferred)))) id =
        if id ∈ List.range' a n then some none else none := by
  induction n with
  | zero => intro a id; simp [entryGet]
  | succ m ih =>
      intro a id
      rw [List.range'_succ]
      by_cases ha : a = id
      · subst ha
        simp [entryGet]
      · simp only [List.map_cons, entryGet, if_neg ha, ih (a + 1) id]
        by_cases hm : id ∈ List.range' (a + 1) m
        · simp [hm, List.mem_cons]
        · simp [hm, List.mem_cons, Ne.symm ha]

/-- Ids assigned along any lifetime trace are all above the counter and
strictly increasing; processing responses never touches the counter. -/
theorem runOps_ids (ops : List CorrEvent) :
    ∀ c : Correlator,
      (∀ id ∈ (c.runOps ops).2, c.lastId < id) ∧
        ((c.runOps ops).2).Chain' (· < ·) := by
  induction ops with
  | nil => intro c; simp [Correlator.runOps]
  | cons op rest ih =>
      intro c
      match op with
      | .sendEvt r =>
          obtain ⟨hmem, hchain⟩ := ih (c.send r).1
          have hlast : (c.send r).1.lastId = c.lastId + 1 := rfl
          rw [hlast] at hmem
          constructor
          · intro id hid
            rw [Correlator.runOps] at hid
            rcases List.mem_cons.mp hid with h | h
            · subst h
              exact Nat.lt_succ_self _
            · exact Nat.lt_of_succ_lt (hmem id h)
          · rw [Correlator.runOps]
            refine List.chain'_cons'.mpr ⟨?_, hchain⟩
            intro y hy
            exact hmem y (List.mem_of_mem_head? hy)
      | .deliverResult id v =>
          obtain ⟨hmem, hchain⟩ := ih (c.resolve id (.ok v)).1
          have hlast : (c.resolve id (.ok v)).1.lastId = c.lastId := by
            unfold Correlator.resolve
            match entryGet c.entries id with
            | none => rfl
            | some none => rfl
            | some (some r) => rfl
          rw [hlast] at hmem
          exact ⟨fun i hi => hmem i (by rwa [Correlator.runOps] at hi),
                 by rw [Correlator.runOps]; exact hchain⟩
      | .deliverError id msg code =>
          obtain ⟨hmem, hchain⟩ := ih (c.resolve id (.error (.errorResp msg code))).1
          have hlast : (c.resolve id (.error (.errorResp msg code))).1.lastId = c.lastId := by
            unfold Correlator.resolve
            match entryGet c.entries id with
            | none => rfl
            | some none => rfl
            | some (some r) => rfl
          rw [hlast] at hmem
          exact ⟨fun i hi => hmem i (by rwa [Correlator.runOps] at hi),
                 by rw [Correlator.runOps]; exact hchain⟩

/-- Back-to-back sends routed through the fake transport: `write` accepts
every emitted envelope, the assigned ids are the consecutive integers after
the counter, and the transport appends them to its pending list in issuance
order. -/
theorem runSends_spec (rs : List Request) :
    ∀ (c : Correlator) (b : FakeAPIBackend),
      ∃ c' b', runSends c b rs = some (c', b', List.range' (c.lastId + 1) rs.length) ∧
        b'.pending = b.pending ++ List.range' (c.lastId + 1) rs.length := by
  induction rs with
  | nil => intro c b; exact ⟨c, b, rfl, by simp⟩
  | cons r rest ih =>
      intro c b
      have hwrite : b.write (c.send r).2.2 =
          some { b with
                 pending := b.pending ++ [c.lastId + 1],
                 requests := updateReq b.requests (c.lastId + 1)
                   ([("RequestId", .jnat (c.lastId + 1)), ("Type", .jstr r.entityType),
                     ("Request", .jstr r.requestInfo)]
                     ++ (match r.entityId with | some s => [("Id", JVal.jstr s)] | none => [])
                     ++ (match r.params with | some p => [("Params", p)] | none => [])
                     ++ [("Version", .jnat r.facadeVersion)]) } := by
        simp [Correlator.send, FakeAPIBackend.write, lookupField]
      obtain ⟨c', b', hrun, hpend⟩ := ih (c.send r).1
        { b with
          pending := b.pending ++ [c.lastId + 1],
          requests := updateReq b.requests (c.lastId + 1)
            ([("RequestId", .jnat (c.lastId + 1)), ("Type", .jstr r.entityType),
              ("Request", .jstr r.requestInfo)]
              ++ (match r.entityId with | some s => [("Id", JVal.jstr s)] | none => [])
              ++ (match r.params with | some p => [("Params", p)] | none => [])
              ++ [("Version", .jnat r.facadeVersion)]) }
      have hlast : (c.send r).1.lastId = c.lastId + 1 := rfl
      refine ⟨c', b', ?_, ?_⟩
      · rw [runSends, hwrite]
        simp only [hrun, hlast, List.length_cons, List.range'_succ, Option.map_some']
        rfl
      · rw [hpend, hlast]
        simp [List.length_cons, List.range'_succ, List.append_assoc]

/-! Lemmas about connection loss. -/

/-- The entry of an id that is pending at disconnection time is rejected by
`connectionLost` with the given failure. -/
theorem entryGet_connectionLost_pending (l : List (Nat × Deferred)) (f : Fail) :
    ∀ id : Nat, entryGet l id = some none →
      entryGet (l.map (fun e =>
        match e.2 with
        | none => (e.1, some (Except.error f))
        | some _ => e)) id = some (some (Except.error f)) := by
  induction l with
  | nil => intro id h; simp [entryGet] at h
  | cons hd tl ih =>
      intro id h
      obtain ⟨i, d⟩ := hd
      by_cases hi : i = id
      · subst hi
        rw [entryGet, if_pos rfl] at h
        obtain rfl : d = none := Option.some.injEq .. ▸ h
        simp [entryGet]
      · rw [entryGet, if_neg hi] at h
        cases d <;> simpa [entryGet, hi] using ih id h

/-- An entry already resolved at disconnection time keeps its value under
`connectionLost`. -/
theorem entryGet_connectionLost_resolved (l : List (Nat × Deferred)) (f : Fail) :
    ∀ (id : Nat) (v : Except Fail JVal), entryGet l id = some (some v) →
      entryGet (l.map (fun e =>
        match e.2 with
        | none => (e.1, some (Except.error f))
        | some _ => e)) id = some (some v) := by
  induction l with
  | nil => intro id v h; simp [entryGet] at h
  | cons hd tl ih =>
      intro id v h
      obtain ⟨i, d⟩ := hd
      by_cases hi : i = id
      · subst hi
        rw [entryGet, if_pos rfl] at h
        obtain rfl : d = some v := Option.some.injEq .. ▸ h
        simp [entryGet]
      · rw [entryGet, if_neg hi] at h
        cases d <;> simpa [entryGet, hi] using ih id v h

/-! The claims. -/

/-- C1: for every sequence of N sends issued before any response arrives the
N assigned request ids are pairwise distinct and strictly increasing in
issuance order, and along any lifetime trace (sends interleaved with
response/error deliveries) the assigned ids remain strictly increasing, so
no id is reused within a connection's lifetime; the ids recorded by the fake
transport's `write` are exactly 1, 2, ..., N in order. -/
theorem c1_requestIdsDistinctIncreasingNeverReused :
    (∀ ops : List CorrEvent,
       ((Correlator.fresh.runOps ops).2).Chain' (· < ·) ∧
       ((Correlator.fresh.runOps ops).2).Pairwise (· ≠ ·)) ∧
    (∀ (version : Nat) (rs : List Request),
       ∃ (c' : Correlator) (b' : FakeAPIBackend),
         runSends Correlator.fresh (FakeAPIBackend.init version) rs =
           some (c', b', List.range' 1 rs.length) ∧
         b'.pending = List.range' 1 rs.length) := by
  constructor
  · intro ops
    have h := runOps_ids ops Correlator.fresh
    refine ⟨h.2, ?_⟩
    exact (List.chain'_iff_pairwise.mp h.2).imp (fun hlt => Nat.ne_of_lt hlt)
  · intro version rs
    simpa [Correlator.fresh, FakeAPIBackend.init] using
      runSends_spec rs Correlator.fresh (FakeAPIBackend.init version)

/-- C6: `responseDeltas` fires a single response whose `Deltas` field has
one element per input delta, in order: the i-th element is the formatted
form of the i-th input delta. -/
theorem c6_responseDeltasPreservesBatchOrder (st : FakeAPIBackend) (pid : Nat)
    (rest : List Nat) (deltas : List DeltaArg) :
    ∃ l : List JVal,
      FakeAPIBackend.responseDeltas { st with pending := pid :: rest } deltas =
        .ok ({ st with pending := rest },
             .jobj [("Response", .jobj [("Deltas", .jarr l)]),
                    ("RequestId", .jnat pid)]) ∧
      l.length = deltas.length ∧
      ∀ i : Nat,
        l[i]? = (deltas[i]?).map
          (FakeAPIBackend.formatDelta { st with pending := pid :: rest }) := by
  refine ⟨deltas.map (FakeAPIBackend.formatDelta { st with pending := pid :: rest }),
          ?_, by simp, ?_⟩
  · simp only [FakeAPIBackend.responseDeltas, FakeAPIBackend.response,
      FakeAPIBackend._fire, List.erase_cons_head]
    rfl
  · intro i
    simp

/-- C8: the entity-kind tag of a formatted application delta is
version-dependent: protocol version 1 tags it "service", any other version
tags it "application"; the Name and CharmURL fields are the same in both
cases. -/
theorem c8_applicationKindTagVersionDependent (st1 st2 : FakeAPIBackend)
    (info : JujuApplicationInfo) (verb : String)
    (h1 : st1.version = 1) (h2 : st2.version ≠ 1) :
    st1._formatJujuApplicationInfo info verb =
      .jarr [.jstr "service", .jstr verb,
             .jobj [("Name", .jstr info.name), ("CharmURL", .jstr info.charmURL)]] ∧
    st2._formatJujuApplicationInfo info verb =
      .jarr [.jstr "application", .jstr verb,
             .jobj [("Name", .jstr info.name), ("CharmURL", .jstr info.charmURL)]] := by
  constructor <;> simp [FakeAPIBackend._formatJujuApplicationInfo, h1, h2]

/-- C8 witness: concrete application info formatted under versions 1 and 2. -/
theorem c8_applicationKindTagVersionDependent_witness :
    (FakeAPIBackend.init 1).version = 1 ∧ (FakeAPIBackend.init 2).version ≠ 1 ∧
    ((FakeAPIBackend.init 1)._formatJujuApplicationInfo
        { name := "wordpress", charmURL := "cs:wordpress-5" } "change" =
      .jarr [.jstr "service", .jstr "change",
             .jobj [("Name", .jstr "wordpress"), ("CharmURL", .jstr "cs:wordpress-5")]] ∧
     (FakeAPIBackend.init 2)._formatJujuApplicationInfo
        { name := "wordpress", charmURL := "cs:wordpress-5" } "change" =
      .jarr [.jstr "application", .jstr "change",
             .jobj [("Name", .jstr "wordpress"), ("CharmURL", .jstr "cs:wordpress-5")]]) :=
  ⟨rfl, by decide,
   c8_applicationKindTagVersionDependent (FakeAPIBackend.init 1) (FakeAPIBackend.init 2)
     { name := "wordpress", charmURL := "cs:wordpress-5" } "change" rfl (by decide)⟩

/-- C9: `response`/`error` with `requestId` omitted fire the payload at the
oldest pending request id (the first element of `pending`), and exactly that
id is removed from the pending list. -/
theorem c9_omittedRequestIdFiresOldestPending (st : FakeAPIBackend) (pid : Nat)
    (rest : List Nat) (r : JVal) (exc : APIErrorExc) :
    FakeAPIBackend.response { st with pending := pid :: rest } r none =
      .ok ({ st with pending := rest },
           .jobj [("Response", r), ("RequestId", .jnat pid)]) ∧
    FakeAPIBackend.error { st with pending := pid :: rest } exc none =
      .ok ({ st with pending := rest },
           .jobj [("Error", .jstr exc.error), ("ErrorCode", .jstr exc.code),
                  ("RequestId", .jnat pid)]) := by
  constructor <;>
  · simp only [FakeAPIBackend.response, FakeAPIBackend.error, FakeAPIBackend._fire,
      List.erase_cons_head]
    rfl

/-- C10: calling `error` or `response` with no pending requests queues the
outcome instead of firing it, and a `sendRequest` issued while outcomes are
queued fires immediately from the queues, consuming a queued error before
any queued response; only with both queues empty is the request appended to
the pending list with a waiting Deferred. -/
theorem c10_sendRequestDrainsQueuesBeforePending (p : FakeAPIClientProtocol)
    (et ri : String) (eid : Option String) (pa : Option JVal) (fv : Nat)
    (e : Fail) (es : List Fail) (c : JVal) (rs : List (String × String × JVal)) :
    (FakeAPIClientProtocol.error { p with _pending_requests := [] } e =
       ({ p with _pending_requests := [],
                 _queued_errors := p._queued_errors ++ [e] },
        .queuedUp)) ∧
    (FakeAPIClientProtocol.response { p with _pending_requests := [] } et ri c =
       ({ p with _pending_requests := [],
                 _queued_responses := p._queued_responses ++ [(et, ri, c)] },
        .queuedUp)) ∧
    (FakeAPIClientProtocol.sendRequest { p with _queued_errors := e :: es } et ri eid pa fv =
       ({ p with _queued_errors := es }, .immediateFailure e)) ∧
    (FakeAPIClientProtocol.sendRequest
        { p with _queued_errors := [], _queued_responses := (et, ri, c) :: rs }
        et ri eid pa fv =
       ({ p with _queued_errors := [], _queued_responses := rs }, .immediateResult c)) ∧
    (FakeAPIClientProtocol.sendRequest
        { p with _queued_errors := [], _queued_responses := [] } et ri eid pa fv =
       ({ p with _queued_errors := [], _queued_responses := [],
                 _pending_requests := p._pending_requests ++
                   [({ entityType := et, requestInfo := ri, entityId := eid,
                       params := pa, facadeVersion := fv }, none)] },
        .queuedPending)) := by
  refine ⟨rfl, rfl, rfl, ?_, rfl⟩
  simp [FakeAPIClientProtocol.sendRequest]

/-- Characterization of one `_loseConnection` step: the state after it and
whether firing `disconnected` raised `AlreadyCalledError`. -/
theorem lose_state (p : FakeAPIClientProtocol) :
    p._loseConnection.1 =
      { p with connected := false,
               _pending_requests := p._pending_requests.map (fun rd =>
                 match rd.2 with
                 | none => (rd.1, some (Except.error Fail.connectionDone))
                 | some _ => rd),
               disconnected := some (p.disconnected.getD (.ok .jnull)) } ∧
    p._loseConnection.2 = p.disconnected.isSome := by
  unfold FakeAPIClientProtocol._loseConnection
  cases hd : p.disconnected <;> simp [hd]

/-- C5 counterexample: on the freshly constructed fake protocol, a second
close is not effect-free: re-firing the already-fired `disconnected`
Deferred raises `AlreadyCalledError` (the `true` in the second
component). -/
theorem c5_counterexample_secondCloseRaises :
    FakeAPIClientProtocol.init._loseConnection.1._loseConnection.2 = true := rfl

/-- C5 amended: the first close clears `connected` and deterministically
flushes every unresolved pending outcome with a disconnection failure before
returning, and a second close causes no new resolutions and no further state
change, but it is not error-free: it raises `AlreadyCalledError` when
re-firing the `disconnected` Deferred. -/
theorem c5_amended_closeFlushesOnceSecondCloseRaises (p : FakeAPIClientProtocol) :
    (p._loseConnection.1.connected = false) ∧
    (∀ (i : Nat) (r : Request),
       p._pending_requests[i]? = some (r, none) →
       p._loseConnection.1._pending_requests[i]? =
         some (r, some (Except.error Fail.connectionDone))) ∧
    (∀ (i : Nat) (r : Request) (v : Except Fail JVal),
       p._pending_requests[i]? = some (r, some v) →
       p._loseConnection.1._pending_requests[i]? = some (r, some v)) ∧
    (p._loseConnection.1._loseConnection.1 = p._loseConnection.1) ∧
    (p._loseConnection.1._loseConnection.2 = true) := by
  have h1 := lose_state p
  have h2 := lose_state p._loseConnection.1
  refine ⟨?_, ?_, ?_, ?_, ?_⟩
  · rw [h1.1]
  · intro i r h
    rw [h1.1]
    simp [List.getElem?_map, h]
  · intro i r v h
    rw [h1.1]
    simp [List.getElem?_map, h]
  · rw [h2.1, h1.1]
    simp
    intro a b _
    cases b <;> rfl
  · rw [h2.2, h1.1]
    simp

/-- C5 witness for the amended claim: concrete protocol with one waiting and
one resolved pending request. -/
theorem c5_amended_witness :
    (protoTwoPending._pending_requests[0]? = some (reqAlpha, none)) ∧
    (protoTwoPending._pending_requests[1]? =
      some (reqAlpha, some (Except.ok (.jstr "done")))) ∧
    protoTwoPending._loseConnection.1._pending_requests[0]? =
      some (reqAlpha, some (Except.error Fail.connectionDone)) ∧
    protoTwoPending._loseConnection.1._pending_requests[1]? =
      some (reqAlpha, some (Except.ok (.jstr "done"))) ∧
    protoTwoPending._loseConnection.1._loseConnection.2 = true :=
  ⟨rfl, rfl,
   (c5_amended_closeFlushesOnceSecondCloseRaises protoTwoPending).2.1 0 reqAlpha rfl,
   (c5_amended_closeFlushesOnceSecondCloseRaises protoTwoPending).2.2.1 1 reqAlpha
     (Except.ok (.jstr "done")) rfl,
   (c5_amended_closeFlushesOnceSecondCloseRaises protoTwoPending).2.2.2.2⟩

/-- C3: after the connection is lost or closed, every previously-unresolved
pending outcome is rejected with a disconnection failure, the connected flag
becomes false (on the fake protocol, on the fake backend transport and on
the modelled correlator), and the delta stream consumer issues no further
"next batch" call. -/
theorem c3_connectionLossRejectsAllPendingAndStopsWatcher :
    (∀ p : FakeAPIClientProtocol,
       p._loseConnection.1.connected = false ∧
       ∀ (i : Nat) (r : Request), p._pending_requests[i]? = some (r, none) →
         ∃ f : Fail,
           p._loseConnection.1._pending_requests[i]? = some (r, some (Except.error f)) ∧
           f.isDisconnect = true) ∧
    (∀ (st : FakeAPIBackend) (proto : Correlator),
       (st.loseConnection proto).1.connected = false ∧
       (st.loseConnection proto).2.connected = false ∧
       ∀ id : Nat, entryGet proto.entries id = some none →
         ∃ f : Fail,
           entryGet (st.loseConnection proto).2.entries id = some (some (Except.error f)) ∧
           f.isDisconnect = true) ∧
    (∀ cs : DeltaConsumer, cs.onConnectionLost.nextBatchCall = none) := by
  refine ⟨fun p => ⟨?_, ?_⟩, fun st proto => ⟨rfl, rfl, ?_⟩, fun cs => rfl⟩
  · rw [(lose_state p).1]
  · intro i r h
    refine ⟨.connectionDone, ?_, rfl⟩
    rw [(lose_state p).1]
    simp [List.getElem?_map, h]
  · intro id h
    exact ⟨.connectionLost,
      entryGet_connectionLost_pending proto.entries Fail.connectionLost id h, rfl⟩

/-- C3 witness: concrete protocol, backend and consumer states. -/
theorem c3_connectionLossRejectsAllPendingAndStopsWatcher_witness :
    (protoTwoPending._pending_requests[0]? = some (reqAlpha, none)) ∧
    (∃ f : Fail,
       protoTwoPending._loseConnection.1._pending_requests[0]? =
         some (reqAlpha, some (Except.error f)) ∧ f.isDisconnect = true) ∧
    (entryGet corrOnePending.entries 1 = some none) ∧
    (∃ f : Fail,
       entryGet ((FakeAPIBackend.init 1).loseConnection corrOnePending).2.entries 1 =
         some (some (Except.error f)) ∧ f.isDisconnect = true) ∧
    deltaConsumerStart.onConnectionLost.nextBatchCall = none :=
  ⟨rfl,
   (c3_connectionLossRejectsAllPendingAndStopsWatcher.1 protoTwoPending).2 0 reqAlpha rfl,
   rfl,
   (c3_connectionLossRejectsAllPendingAndStopsWatcher.2.1
     (FakeAPIBackend.init 1) corrOnePending).2.2 1 rfl,
   c3_connectionLossRejectsAllPendingAndStopsWatcher.2.2 deltaConsumerStart⟩

/-- C4: delivering a response or error for an unknown request id — never
issued, already resolved, or arriving after disconnection — never raises
across the connection boundary: `resolve` is total and reports the message
as `UnmatchedResponseError`, leaving the state unchanged. -/
theorem c4_unknownIdReportedAsUnmatchedNotRaised (c : Correlator) (id : Nat)
    (v : Except Fail JVal) :
    (entryGet c.entries id = none → c.resolve id v = (c, .unmatchedResponse)) ∧
    (∀ r : Except Fail JVal, entryGet c.entries id = some (some r) →
       c.resolve id v = (c, .unmatchedResponse)) ∧
    (∀ f : Fail, entryGet c.entries id = some none →
       (c.connectionLost f).resolve id v =
         (c.connectionLost f, .unmatchedResponse)) := by
  refine ⟨?_, ?_, ?_⟩
  · intro h
    simp [Correlator.resolve, h]
  · intro r h
    simp [Correlator.resolve, h]
  · intro f h
    have hflushed : entryGet (c.connectionLost f).entries id =
        some (some (Except.error f)) :=
      entryGet_connectionLost_pending c.entries f id h
    simp [Correlator.resolve, hflushed]

/-- C4 witness: an id never issued, an id already resolved, and a pending id
delivered after disconnection. -/
theorem c4_unknownIdReportedAsUnmatchedNotRaised_witness :
    (entryGet Correlator.fresh.entries 5 = none ∧
     Correlator.fresh.resolve 5 (.ok .jnull) = (Correlator.fresh, .unmatchedResponse)) ∧
    (entryGet corrOneResolved.entries 1 = some (some (Except.ok (.jstr "done"))) ∧
     corrOneResolved.resolve 1 (.ok .jnull) = (corrOneResolved, .unmatchedResponse)) ∧
    (entryGet corrOnePending.entries 1 = some none ∧
     (corrOnePending.connectionLost .connectionLost).resolve 1 (.ok .jnull) =
       (corrOnePending.connectionLost .connectionLost, .unmatchedResponse)) :=
  ⟨⟨rfl, (c4_unknownIdReportedAsUnmatchedNotRaised Correlator.fresh 5 (.ok .jnull)).1 rfl⟩,
   ⟨rfl, (c4_unknownIdReportedAsUnmatchedNotRaised corrOneResolved 1 (.ok .jnull)).2.1
           (Except.ok (.jstr "done")) rfl⟩,
   ⟨rfl, (c4_unknownIdReportedAsUnmatchedNotRaised corrOnePending 1 (.ok .jnull)).2.2
           .connectionLost rfl⟩⟩

/-- C2: after N back-to-back sends, delivering one response per id in any
permutation of the ids resolves every outcome exactly once with the payload
addressed to its own id, never one meant for a different id; attempting to
resolve an already-resolved id is reported as a programming error (an
`UnmatchedResponseError` report from the correlator, an
`AlreadyCalledError` on the fake protocol's already-fired Deferred), not a
silent second resolution. -/
theorem c2_eachOutcomeResolvesOnceWithItsOwnPayload
    (rs : List Request) (payload : Nat → JVal) (msgs : List (Nat × JVal))
    (hperm : List.Perm (msgs.map Prod.fst) (List.range' 1 rs.length))
    (hpay : ∀ m ∈ msgs, m.2 = payload m.1) :
    (∀ id ∈ List.range' 1 rs.length,
       entryGet ((Correlator.fresh.sendMany rs).deliverAll msgs).entries id =
         some (some (Except.ok (payload id)))) ∧
    (∀ (c : Correlator) (id : Nat) (w r : Except Fail JVal),
       entryGet c.entries id = some (some r) →
       c.resolve id w = (c, .unmatchedResponse)) ∧
    (∀ (p : FakeAPIClientProtocol) (req : Request) (v : Except Fail JVal)
       (rest : List (Request × Deferred)) (content : JVal),
       (FakeAPIClientProtocol.response
         { p with _pending_requests := (req, some v) :: rest }
         req.entityType req.requestInfo content).2 = .alreadyCalledError) := by
  refine ⟨?_, ?_, ?_⟩
  · intro id hid
    have hpend : entryGet (Correlator.fresh.sendMany rs).entries id = some none := by
      rw [(sendMany_entries rs Correlator.fresh).1]
      show entryGet ((List.range' 1 rs.length).map fun i => (i, none)) id = some none
      rw [entryGet_range_map rs.length 1 id, if_pos hid]
    have hnodup : (msgs.map Prod.fst).Nodup :=
      hperm.nodup_iff.mpr (List.nodup_range' 1 rs.length)
    have hmemkeys : id ∈ msgs.map Prod.fst := hperm.mem_iff.mpr hid
    obtain ⟨m, hm, hfst⟩ := List.mem_map.mp hmemkeys
    have hmsg : (id, payload id) ∈ msgs := by
      have hsnd := hpay m hm
      have : m = (id, payload id) := by
        obtain ⟨a, b⟩ := m
        simp only at hfst hsnd
        rw [hfst] at hsnd ⊢
        rw [hsnd]
      rwa [this] at hm
    exact deliverAll_fires msgs (Correlator.fresh.sendMany rs) id (payload id)
      hmsg hnodup hpend
  · intro c id w r h
    simp [Correlator.resolve, h]
  · intro p req v rest content
    simp [FakeAPIClientProtocol.response]

/-- C2 witness: two sends, responses delivered in reverse order of issuance;
each outcome holds exactly the payload addressed to its own id. -/
theorem c2_eachOutcomeResolvesOnceWithItsOwnPayload_witness :
    List.Perm ([((2 : Nat), JVal.jnat 2), (1, JVal.jnat 1)].map Prod.fst)
       (List.range' 1 [reqAlpha, reqAlpha].length) ∧
    entryGet ((Correlator.fresh.sendMany [reqAlpha, reqAlpha]).deliverAll
        [(2, JVal.jnat 2), (1, JVal.jnat 1)]).entries 1 =
      some (some (Except.ok (JVal.jnat 1))) ∧
    entryGet ((Correlator.fresh.sendMany [reqAlpha, reqAlpha]).deliverAll
        [(2, JVal.jnat 2), (1, JVal.jnat 1)]).entries 2 =
      some (some (Except.ok (JVal.jnat 2))) :=
  ⟨by decide,
   (c2_eachOutcomeResolvesOnceWithItsOwnPayload [reqAlpha, reqAlpha]
      (fun i => JVal.jnat i) [(2, JVal.jnat 2), (1, JVal.jnat 1)] (by decide)
      (by intro m hm
          rcases List.mem_cons.mp hm with h | h
          · rw [h]
          · rcases List.mem_cons.mp h with h2 | h2
            · rw [h2]
            · simp at h2)).1 1 (by decide),
   (c2_eachOutcomeResolvesOnceWithItsOwnPayload [reqAlpha, reqAlpha]
      (fun i => JVal.jnat i) [(2, JVal.jnat 2), (1, JVal.jnat 1)] (by decide)
      (by intro m hm
          rcases List.mem_cons.mp hm with h | h
          · rw [h]
          · rcases List.mem_cons.mp h with h2 | h2
            · rw [h2]
            · simp at h2)).1 2 (by decide)⟩

/-- C7: full machine-delta scenario.  The watch start goes out as request 1
and is answered with `AllWatcherId "1"`; the consumer binds its next-batch
call to handle "1"; the next-batch call goes out as request 2; a machine
delta with id "0", instance id "i-123" and status "started" is delivered on
the wire as exactly the watch-next reply the spec shows; and the subscriber
decodes exactly one ChangeRecord of kind Machine, verb change, id "0". -/
theorem c7_machineDeltaScenario :
    ∃ (c₁ : Correlator) (b₁ b₂ : FakeAPIBackend) (c₁' : Correlator)
      (c₂ : Correlator) (b₃ b₄ : FakeAPIBackend),
      runSends Correlator.fresh (FakeAPIBackend.init 1) [watchStartReq] =
        some (c₁, b₁, [1]) ∧
      b₁.responseWatchAll =
        .ok (b₂, .jobj [("Response", .jobj [("AllWatcherId", .jstr "1")]),
                        ("RequestId", .jnat 1)]) ∧
      c₁.resolve 1 (.ok (.jobj [("AllWatcherId", .jstr "1")])) = (c₁', .fired) ∧
      (deltaConsumerStart.onWatchStartReply
        (.jobj [("AllWatcherId", .jstr "1")])).nextBatchCall = some "1" ∧
      runSends c₁' b₂ [nextBatchReq] = some (c₂, b₃, [2]) ∧
      b₃.responseDeltas [machineDelta] =
        .ok (b₄, .jobj [("Response", .jobj [("Deltas", .jarr
                [.jarr [.jstr "machine", .jstr "change",
                        .jobj [("Id", .jstr "0"), ("InstanceId", .jstr "i-123"),
                               ("Status", .jstr "started")]]])]),
              ("RequestId", .jnat 2)]) ∧
      (c₂.resolve 2 (.ok (.jobj [("Deltas", .jarr
        [.jarr [.jstr "machine", .jstr "change",
                .jobj [("Id", .jstr "0"), ("InstanceId", .jstr "i-123"),
                       ("Status", .jstr "started")]]])]))).2 = .fired ∧
      decodeBatch (.jobj [("Deltas", .jarr
        [.jarr [.jstr "machine", .jstr "change",
                .jobj [("Id", .jstr "0"), ("InstanceId", .jstr "i-123"),
                       ("Status", .jstr "started")]]])]) =
        [{ kind := .machineKind, verb := "change", entityId := "0" }] :=
  ⟨_, _, _, _, _, _, _, rfl, rfl, rfl, rfl, rfl, rfl, rfl, rfl⟩

end TxJuju
